import Mathlib

/-!
Shallow embedding of the GreenBox device-protocol core (`src/greenbox.py`):
the 6-byte frame codec, the device-state interpreter with the light-schedule
heuristic, the diagnostic log, and the command channel's clamping.

Conventions of the embedding:
* Python `datetime` values in UTC are represented as whole seconds since the
  epoch (`Nat`); `now.replace(hour=h, minute=m, second=0, microsecond=0)`
  becomes `(now / 86400) * 86400 + h * 3600 + m * 60`, which is the same
  instant truncated to the wake minute of the current UTC day.  The model is
  meaningful only for `h ≤ 23` and `m ≤ 59`, since `datetime.replace` raises
  otherwise; theorems about the schedule branch carry those bounds.
* `bytes(...)` construction is fallible in Python (each element must lie in
  `[0, 256)`), so `create_7b_message` returns `Option (List Nat)`: `none`
  models the `ValueError` raised by `bytes`.
* The attribute `light_on` starts as `False` and is later assigned ints
  `-1/0/1`; Python treats `False == 0`, so the field is an `Int` with
  initial value `0`.
* All `datetime.now()` calls within one method invocation are given the same
  explicit `now` argument.
-/

namespace GreenBox

/-- Modelled from the spec: the control-ID table lives in
`greenbox_message_ids.py`, which is not under `src/`; the spec states the IDs
are "opaque vendor-assigned byte values" whose "exact numeric assignments are
a configuration constant".  Distinct placeholder byte value for `gb_wake_time`. -/
def gb_wake_time : Nat := 17

/-- Modelled from the spec: placeholder byte value for `gb_wake_hours`. -/
def gb_wake_hours : Nat := 18

/-- Modelled from the spec: placeholder byte value for `gb_wake_hours_wknd`. -/
def gb_wake_hours_wknd : Nat := 19

/-- Modelled from the spec: placeholder byte value for `gb_wake_time_wknd`. -/
def gb_wake_time_wknd : Nat := 20

/-- Modelled from the spec: placeholder byte value for `gb_water`. -/
def gb_water : Nat := 21

/-- Modelled from the spec: placeholder byte value for `gb_light_on`. -/
def gb_light_on : Nat := 22

/-- Modelled from the spec: placeholder byte values for the three lamp IDs
`gb_lamps`. -/
def gb_lamps : List Nat := [23, 24, 25]

/-- Modelled from the spec: `gb_checksum_base` ("CHECKSUM_BASE") is "a fixed
device-specific constant" defined in `greenbox_message_ids.py`; placeholder
value.  Every theorem below holds for any value of this constant. -/
def gb_checksum_base : Int := 255

/-- Result of parsing a notification.  `parse_7b_notification` in the source
returns `(-1, data)` for over-long frames (the raw bytes stand in for the
value) and an `(id, value)` pair otherwise; the two shapes are the two
constructors here. -/
inductive ParseResult where
  | unsupported (raw : List Nat)
  | parsed (id : Nat) (val : Nat)
deriving DecidableEq, Repr

/-- `GreenBox.parse_7b_notification` (the Lean name is shortened): parse up
to 7 bytes of notification data. -/
def parse_7b (data : List Nat) : ParseResult :=
  if data.length > 7 then .unsupported data
  else if data.length < 4 then .parsed 0 0
  else
    let status_id := data.getD 1 0
    let value_high := data.getD 2 0
    let value_low := data.getD 3 0
    .parsed status_id ((value_high <<< 8) ||| value_low)

/-- `GreenBox.gen_checksum`: `(gb_checksum_base - sum(values)) % 256`.
Python `%` on a positive modulus agrees with `Int.emod`. -/
def gen_checksum (values : List Int) : Int :=
  (gb_checksum_base - values.sum) % 256

/-- `GreenBox.create_7b_message`: build the 6-byte command frame
`bytes([238, control_id, value_high, value_low, checksum, 239])`.
`data >> 8` on a Python int is floor division by 256 (`Int.fdiv`), and
`bytes` raises `ValueError` unless every element is in `[0, 256)`, hence the
`Option`. -/
def create_7b_message (data : Int) (control_id : Int) : Option (List Nat) :=
  let value_high := Int.fdiv data 256
  let value_low := data - value_high * 256
  let checksum := gen_checksum [control_id, value_high, value_low]
  let byte_message : List Int := [238, control_id, value_high, value_low, checksum, 239]
  if ∀ b ∈ byte_message, 0 ≤ b ∧ b < 256 then
    some (byte_message.map Int.toNat)
  else
    none

/-- The mutable public state of a `GreenBox` instance (`__init__`), minus the
transport handles.  `timestamp` is the time of the last successfully applied
notification (spec: `last_update`). -/
structure GBState where
  wake_hours_utc : Nat
  wake_minutes_utc : Nat
  hours_on : Nat
  wake_hours_weekend_utc : Nat
  timeout_seconds : Nat
  wake_minutes_weekend_utc : Nat
  hours_on_weekend : Nat
  weekend_enabled : Bool
  light_status : Nat
  light_on : Int
  lamp_lvl : List Nat
  water_lvl : Nat
  timestamp : Nat
deriving DecidableEq, Repr

/-- `GreenBox.__init__` field initialisation; `now0` is the construction
time (`update_timestamp` is called from the constructor). -/
def initState (now0 : Nat) : GBState where
  wake_hours_utc := 0
  wake_minutes_utc := 0
  hours_on := 0
  wake_hours_weekend_utc := 0
  timeout_seconds := 20
  wake_minutes_weekend_utc := 0
  hours_on_weekend := 0
  weekend_enabled := false
  light_status := 0
  light_on := 0
  lamp_lvl := [0, 0, 0]
  water_lvl := 0
  timestamp := now0

/-- `GreenBox.update_timestamp`: `timestamp = datetime.now(utc)`. -/
def update_timestamp (s : GBState) (now : Nat) : GBState :=
  { s with timestamp := now }

/-- `GreenBox.is_connected`: `(timestamp + timedelta(seconds=timeout_seconds)) > now`. -/
def is_connected (s : GBState) (now : Nat) : Bool :=
  decide (s.timestamp + s.timeout_seconds > now)

/-- `GreenBox.check_light_status`: recompute `light_on` from `light_status`,
the wake fields and the current time; `-1` when not connected. -/
def check_light_status (s : GBState) (now : Nat) : GBState :=
  if is_connected s now = false then
    { s with light_on := -1 }
  else if s.light_status = 3 then
    let start0 : Int := ((now / 86400) * 86400 + s.wake_hours_utc * 3600 + s.wake_minutes_utc * 60 : Nat)
    let start_time : Int := if start0 > (now : Int) then start0 - 86400 else start0
    let duration : Int := (s.hours_on * 3600 : Nat)
    let end_time : Int := start_time + duration
    { s with light_on := if start_time ≤ (now : Int) ∧ (now : Int) < end_time then 1 else 0 }
  else
    { s with light_on := if s.light_status = 1 then 1 else 0 }

/-- `GreenBox.proc_known_ids`: dispatch a parsed notification into the named
state fields (a chain of independent `if`s in the source), then
`update_timestamp`.  For an over-long frame the source's `val_id` is `-1`,
which matches no byte-valued control ID, so only the timestamp is updated. -/
def proc_known_ids (s : GBState) (data : List Nat) (now : Nat) : GBState :=
  match parse_7b data with
  | .unsupported _ => update_timestamp s now
  | .parsed val_id val =>
    let s1 := if val_id = gb_wake_time then
        { s with wake_hours_utc := val / 100,
                 wake_minutes_utc := val - (val / 100) * 100 } else s
    let s2 := if val_id = gb_wake_hours then { s1 with hours_on := val } else s1
    let s3 := if val_id = gb_wake_hours_wknd then
        { s2 with weekend_enabled := decide (val > 0), hours_on_weekend := val } else s2
    let s4 := if val_id = gb_wake_time_wknd then
        { s3 with wake_hours_weekend_utc := val / 100,
                  wake_minutes_weekend_utc := val - (val / 100) * 100 } else s3
    let s5 := if val_id = gb_water then { s4 with water_lvl := val } else s4
    let s6 := if val_id ∈ gb_lamps then
        { s5 with lamp_lvl := s5.lamp_lvl.set (gb_lamps.indexOf val_id) val } else s5
    let s7 := if val_id = gb_light_on then
        check_light_status { s6 with light_status := val } now else s6
    update_timestamp s7 now

/-- The dictionary returned by `GreenBox.get_data`: every non-underscore
attribute plus the derived `is_connected` flag.  `light_on` is read from the
stored attribute, not recomputed. -/
structure Snapshot where
  wake_hours_utc : Nat
  wake_minutes_utc : Nat
  hours_on : Nat
  wake_hours_weekend_utc : Nat
  timeout_seconds : Nat
  wake_minutes_weekend_utc : Nat
  hours_on_weekend : Nat
  weekend_enabled : Bool
  light_status : Nat
  light_on : Int
  lamp_lvl : List Nat
  water_lvl : Nat
  timestamp : Nat
  is_connected : Bool
deriving DecidableEq, Repr

/-- `GreenBox.get_data`. -/
def get_data (s : GBState) (now : Nat) : Snapshot where
  wake_hours_utc := s.wake_hours_utc
  wake_minutes_utc := s.wake_minutes_utc
  hours_on := s.hours_on
  wake_hours_weekend_utc := s.wake_hours_weekend_utc
  timeout_seconds := s.timeout_seconds
  wake_minutes_weekend_utc := s.wake_minutes_weekend_utc
  hours_on_weekend := s.hours_on_weekend
  weekend_enabled := s.weekend_enabled
  light_status := s.light_status
  light_on := s.light_on
  lamp_lvl := s.lamp_lvl
  water_lvl := s.water_lvl
  timestamp := s.timestamp
  is_connected := is_connected s now

/-- One entry of `GreenBox._data_store`; `timestamp` is the spec's
`last_seen`, `first_timestamp` its `first_seen`.  The source stores the pair
`parsed = [parsed_id, parsed_val]`, carried here as a `ParseResult`. -/
structure LogEntry where
  timestamp : Nat
  first_timestamp : Nat
  raw_val : List Nat
  parsed : ParseResult
deriving DecidableEq, Repr

/-- The diagnostic log `GreenBox._data_store`: a dictionary keyed by
`data.hex()`.  Since `bytes.hex()` is injective, the key is modelled by the
raw byte list itself; insertion order of a Python dict is modelled by an
association list. -/
abbrev DataStore : Type := List (List Nat × LogEntry)

/-- `GreenBox.proc_all`: refresh the entry's `timestamp` when the exact byte
sequence was seen before, otherwise append a fresh entry recording both
timestamps and the parse. -/
def proc_all (store : DataStore) (data : List Nat) (ts : Nat) : DataStore :=
  if (List.lookup data store).isSome then
    store.map fun p => if p.1 = data then (p.1, { p.2 with timestamp := ts }) else p
  else
    store ++ [(data, { timestamp := ts, first_timestamp := ts,
                       raw_val := data, parsed := parse_7b data })]

/-- `GreenBox.valchk`: `max(min(int(val), max_val), min_val)`.  The Python
default `min_val=0` is passed explicitly at every call site below. -/
def valchk (val : Int) (max_val : Int) (min_val : Int) : Int :=
  max (min val max_val) min_val

/-- `GreenBox.lamp_control` up to the transport write: the frame it encodes.
`gb_lamps[lamp_id]` is meaningful for `lamp_id < 3`. -/
def lamp_control (strength : Int) (lamp_id : Nat) : Option (List Nat) :=
  create_7b_message (valchk strength 100 0) (gb_lamps.getD lamp_id 0 : Nat)

/-- `GreenBox.set_wake_time_utc` up to the transport write. -/
def set_wake_time_utc (hours : Int) (minutes : Int) : Option (List Nat) :=
  create_7b_message ((valchk hours 24 0) * 100 + valchk minutes 60 0) (gb_wake_time : Nat)

/-- `GreenBox.set_wake_time_weekend_utc` up to the transport write. -/
def set_wake_time_weekend_utc (hours : Int) (minutes : Int) : Option (List Nat) :=
  create_7b_message ((valchk hours 24 0) * 100 + valchk minutes 60 0) (gb_wake_time_wknd : Nat)

/-- `GreenBox.turn_light_on` up to the transport write. -/
def turn_light_on : Option (List Nat) :=
  create_7b_message 1 (gb_light_on : Nat)

/-- `GreenBox.turn_light_off` up to the transport write. -/
def turn_light_off : Option (List Nat) :=
  create_7b_message 0 (gb_light_on : Nat)

/-- Python truthiness: `not x` on an int (or bool, since `False == 0`) is
`True` exactly when `x == 0`, and the bool then enters `create_7b_message`
as the int `1` or `0`. -/
def pyNot (x : Int) : Int :=
  if x = 0 then 1 else 0

/-- `GreenBox.toggle_light` up to the transport write:
`create_7b_message(not self.light_on, gb_light_on)`. -/
def toggle_light (s : GBState) : Option (List Nat) :=
  create_7b_message (pyNot s.light_on) (gb_light_on : Nat)

end GreenBox

namespace GreenBox

/-! ### Helper lemmas about the codec -/

lemma fdiv_cast_256 (v : Nat) : Int.fdiv (v : Int) 256 = ((v / 256 : Nat) : Int) := by
  rw [Int.fdiv_eq_ediv _ (by norm_num)]
  omega

lemma low_byte_eq (v : Nat) : (v : Int) - ((v / 256 : Nat) : Int) * 256 = ((v % 256 : Nat) : Int) := by
  have h := Nat.div_add_mod v 256
  push_cast
  omega

/-- The checksum as an integer, for a frame encoding value `v` with ID `id`. -/
def checksumInt (v id : Nat) : Int :=
  (gb_checksum_base - ((id : Int) + ((v / 256 : Nat) : Int) + ((v % 256 : Nat) : Int))) % 256

lemma checksumInt_nonneg (v id : Nat) : 0 ≤ checksumInt v id :=
  Int.emod_nonneg _ (by norm_num)

lemma checksumInt_lt (v id : Nat) : checksumInt v id < 256 :=
  Int.emod_lt_of_pos _ (by norm_num)

/-- Shape of a successful encode: for a 16-bit value and a byte ID,
`create_7b_message` succeeds and produces exactly the documented frame. -/
lemma create_7b_message_eq (v id : Nat) (hv : v < 65536) (hid : id < 256) :
    create_7b_message (v : Int) (id : Int) =
      some [238, id, v / 256, v % 256, (checksumInt v id).toNat, 239] := by
  have hdiv : v / 256 < 256 := by omega
  have hmod : v % 256 < 256 := by omega
  simp only [create_7b_message, gen_checksum, fdiv_cast_256, low_byte_eq,
    List.sum_cons, List.sum_nil, add_zero]
  rw [if_pos]
  · simp [checksumInt, gen_checksum, add_assoc]
    constructor <;> omega
  · intro b hb
    simp only [List.mem_cons, List.not_mem_nil, or_false] at hb
    have h0 := checksumInt_nonneg v id
    have h1 := checksumInt_lt v id
    simp only [checksumInt, gen_checksum] at h0 h1
    rcases hb with rfl | rfl | rfl | rfl | rfl | rfl
    · constructor <;> norm_num
    · constructor
      · positivity
      · exact_mod_cast hid
    · constructor
      · positivity
      · exact_mod_cast hdiv
    · constructor
      · positivity
      · exact_mod_cast hmod
    · constructor
      · simpa [add_assoc] using h0
      · simpa [add_assoc] using h1
    · constructor <;> norm_num

lemma high_shift_or_low (v : Nat) :
    ((v / 256) <<< 8) ||| (v % 256) = v := by
  have hmod : v % 256 < 2 ^ 8 := by omega
  rw [Nat.shiftLeft_eq, Nat.mul_comm, ← Nat.mul_add_lt_is_or hmod]
  omega

end GreenBox

namespace GreenBox

/-! ### Codec claims -/

/-- C3: Codec round-trip — for every `control_id ∈ [0, 255]` and every
`value ∈ [0, 65535]`, decoding the frame produced by
`create_7b_message value control_id` yields exactly the parsed pair
`(control_id, value)`. -/
theorem C3_codec_roundtrip (value control_id : Nat)
    (hv : value ≤ 65535) (hid : control_id ≤ 255) :
    ∃ frame, create_7b_message (value : Int) (control_id : Int) = some frame ∧
      parse_7b frame = .parsed control_id value := by
  refine ⟨_, create_7b_message_eq value control_id (by omega) (by omega), ?_⟩
  simp only [parse_7b]
  norm_num
  exact high_shift_or_low value

/-- C3 witness: the round trip at `control_id = 17`, `value = 1234`. -/
theorem C3_codec_roundtrip_witness :
    (1234 ≤ 65535 ∧ 17 ≤ 255) ∧
    ∃ frame, create_7b_message (1234 : Int) (17 : Int) = some frame ∧
      parse_7b frame = .parsed 17 1234 :=
  ⟨by decide, C3_codec_roundtrip 1234 17 (by decide) (by decide)⟩

/-- C4: `parse_7b_notification` is total on arbitrary byte lists (the Lean
embedding is a total function, so no input raises): inputs longer than 7
bytes yield the opaque unsupported variant carrying the raw bytes, inputs
shorter than 4 bytes yield `(0, 0)`, and otherwise the result is
`(bytes[1], (bytes[2] << 8) | bytes[3])`. -/
theorem C4_decode_never_raises (data : List Nat) :
    (data.length > 7 → parse_7b data = .unsupported data) ∧
    (data.length < 4 → parse_7b data = .parsed 0 0) ∧
    (4 ≤ data.length → data.length ≤ 7 →
      parse_7b data = .parsed (data.getD 1 0) (((data.getD 2 0) <<< 8) ||| data.getD 3 0)) := by
  refine ⟨fun h => ?_, fun h => ?_, fun h4 h7 => ?_⟩
  · simp [parse_7b, h]
  · simp [parse_7b, h]
    omega
  · simp only [parse_7b]
    rw [if_neg (by omega), if_neg (by omega)]

/-- C4 witness: the three length regimes at concrete inputs. -/
theorem C4_decode_never_raises_witness :
    parse_7b [9, 8, 7, 6, 5, 4, 3, 2] = .unsupported [9, 8, 7, 6, 5, 4, 3, 2] ∧
    parse_7b [1, 2] = .parsed 0 0 ∧
    parse_7b [0, 1, 2, 3, 4] = .parsed 1 515 := by
  refine ⟨(C4_decode_never_raises _).1 (by decide),
          (C4_decode_never_raises _).2.1 (by decide), ?_⟩
  rw [(C4_decode_never_raises [0, 1, 2, 3, 4]).2.2 (by decide) (by decide)]
  decide

/-- C5 counterexample: the claim "encode always succeeds for every integer
value" is false — `create_7b_message (-5) 17` fails (`bytes` raises on the
negative high byte `-1`), and so does `create_7b_message 65541 17` (high
byte `256`); the value is not truncated to 16 bits. -/
theorem C5_counterexample :
    create_7b_message (-5) 17 = none ∧ create_7b_message 65541 17 = none := by
  decide

/-- C5 (amended): frame construction succeeds exactly on the non-fallible
domain — for every `value ∈ [0, 65535]` and `control_id ∈ [0, 255]`,
`create_7b_message` returns a 6-byte frame. -/
theorem C5_encode_in_range_succeeds (value control_id : Nat)
    (hv : value ≤ 65535) (hid : control_id ≤ 255) :
    ∃ frame, create_7b_message (value : Int) (control_id : Int) = some frame ∧
      frame.length = 6 := by
  refine ⟨_, create_7b_message_eq value control_id (by omega) (by omega), rfl⟩

/-- C5 witness: success of the amended statement at `value = 65535`,
`control_id = 255`. -/
theorem C5_encode_in_range_succeeds_witness :
    (65535 ≤ 65535 ∧ 255 ≤ 255) ∧
    ∃ frame, create_7b_message (65535 : Int) (255 : Int) = some frame ∧
      frame.length = 6 :=
  ⟨by decide, C5_encode_in_range_succeeds 65535 255 (by decide) (by decide)⟩

/-- C8: for every `value ∈ [0, 65535]` and `control_id ∈ [0, 255]`, encode
produces exactly the 6-byte frame
`[0xEE, control_id, value >> 8, value & 0xFF, checksum, 0xEF]` with
`checksum = (CHECKSUM_BASE - (control_id + value_high + value_low)) mod 256`,
a number that always lies in `[0, 255]`. -/
theorem C8_frame_layout_and_checksum (value control_id : Nat)
    (hv : value ≤ 65535) (hid : control_id ≤ 255) :
    create_7b_message (value : Int) (control_id : Int) =
      some [0xEE, control_id, value >>> 8, value &&& 0xFF,
            ((gb_checksum_base -
              ((control_id : Int) + ((value >>> 8 : Nat) : Int) + ((value &&& 0xFF : Nat) : Int))) % 256).toNat,
            0xEF] ∧
    0 ≤ (gb_checksum_base -
          ((control_id : Int) + ((value >>> 8 : Nat) : Int) + ((value &&& 0xFF : Nat) : Int))) % 256 ∧
    (gb_checksum_base -
          ((control_id : Int) + ((value >>> 8 : Nat) : Int) + ((value &&& 0xFF : Nat) : Int))) % 256 ≤ 255 := by
  have hsr : value >>> 8 = value / 256 := by
    rw [Nat.shiftRight_eq_div_pow]
  have hand : value &&& 0xFF = value % 256 := by
    have h := Nat.and_pow_two_sub_one_eq_mod value 8
    norm_num at h
    exact h
  rw [hsr, hand]
  refine ⟨create_7b_message_eq value control_id (by omega) (by omega),
    checksumInt_nonneg value control_id, by
      have := checksumInt_lt value control_id
      simp only [checksumInt] at this
      omega⟩

/-- C8 witness: the exact frame for `value = 1234`, `control_id = 17`. -/
theorem C8_frame_layout_and_checksum_witness :
    create_7b_message (1234 : Int) (17 : Int) =
      some [0xEE, 17, 1234 >>> 8, 1234 &&& 0xFF,
            ((gb_checksum_base -
              ((17 : Int) + ((1234 >>> 8 : Nat) : Int) + ((1234 &&& 0xFF : Nat) : Int))) % 256).toNat,
            0xEF] :=
  (C8_frame_layout_and_checksum 1234 17 (by decide) (by decide)).1

/-- C10: `toggle_light` encodes the Python boolean negation of the stored
`light_on`: the value byte of the frame it sends is `1` exactly when
`light_on = 0` (which covers the initial `False`), and `0` whenever
`light_on` is `1` or unknown (`-1`) — toggling in the unknown state commands
the light off. -/
theorem C10_toggle_negates (s : GBState) :
    toggle_light s =
      some [0xEE, gb_light_on, 0, (if s.light_on = 0 then 1 else 0),
            ((gb_checksum_base -
              ((gb_light_on : Int) + 0 + (if s.light_on = 0 then (1 : Int) else 0))) % 256).toNat,
            0xEF] := by
  by_cases h : s.light_on = 0
  · simp only [toggle_light, pyNot, h, if_pos, if_true]
    decide
  · simp only [toggle_light, pyNot, if_neg h]
    decide

end GreenBox

namespace GreenBox

/-! ### Light heuristic and state-machine claims -/

/-- Spec-side restatement of the schedule-following branch, written from the
spec's words (§4.2 step 2): `start = today_utc at (wake_h:wake_m)`; if
`start > now`, subtract one day; `end = start + hours_on` hours (no minute
component); `on` iff `start <= now < end`.  Compared against
`check_light_status`, which is translated from the source. -/
def compute_light_on_spec (wake_h wake_m hrs_on now : Nat) : Int :=
  let today_start : Int := ((now / 86400 : Nat) : Int) * 86400
  let start0 : Int := today_start + (wake_h : Int) * 3600 + (wake_m : Int) * 60
  let start : Int := if (now : Int) < start0 then start0 - 86400 else start0
  let endt : Int := start + (hrs_on : Int) * 3600
  if start ≤ (now : Int) ∧ (now : Int) < endt then 1 else 0

/-- C1: in schedule-following mode (`light_status = 3`), when the session is
not stale, `check_light_status` stores exactly the spec's schedule window
computation: start at today's wake time (minus one day if still ahead of
`now`), end after `hours_on` hours, on iff `start ≤ now < end`.  The bounds
on the wake fields are the domain of `datetime.replace`. -/
theorem C1_schedule_mode (s : GBState) (now : Nat)
    (hconn : is_connected s now = true)
    (hstatus : s.light_status = 3)
    (hh : s.wake_hours_utc ≤ 23) (hm : s.wake_minutes_utc ≤ 59) :
    (check_light_status s now).light_on =
      compute_light_on_spec s.wake_hours_utc s.wake_minutes_utc s.hours_on now := by
  simp only [check_light_status, hconn, hstatus, compute_light_on_spec,
    Bool.true_eq_false, if_false, if_pos rfl, gt_iff_lt]
  push_cast
  ring_nf

/-- C1 witness: wake `06:00` UTC, `hours_on = 2`; a non-stale read at
`07:30` UTC on the same day (second 113400 of the epoch) yields on, and one
at `09:00` UTC (second 118800) yields off. -/
theorem C1_schedule_mode_witness :
    (check_light_status
      { initState 113400 with light_status := 3, wake_hours_utc := 6, hours_on := 2 }
      113400).light_on = 1 ∧
    (check_light_status
      { initState 118800 with light_status := 3, wake_hours_utc := 6, hours_on := 2 }
      118800).light_on = 0 := by
  constructor
  · rw [C1_schedule_mode _ 113400 (by decide) (by decide) (by decide) (by decide)]
    decide
  · rw [C1_schedule_mode _ 118800 (by decide) (by decide) (by decide) (by decide)]
    decide

/-- C2 counterexample: the claim says a read taken after more than the
staleness timeout has elapsed since the last applied notification shows
`light_on = unknown (-1)`.  In the code `light_on` is stored, not recomputed
on read: apply a light-status notification with value `1` at time `10`
(session fresh, so `light_on` becomes `1`), then read at time `1000` — the
session is stale, yet `get_data` still reports `light_on = 1`, not `-1`. -/
theorem C2_counterexample :
    is_connected (proc_known_ids (initState 0) [0, gb_light_on, 0, 1] 10) 1000 = false ∧
    (proc_known_ids (initState 0) [0, gb_light_on, 0, 1] 10).timestamp = 10 ∧
    (get_data (proc_known_ids (initState 0) [0, gb_light_on, 0, 1] 10) 1000).light_on = 1 := by
  decide

/-- C2 (amended): `light_on` is recomputed — as a function of
`light_status`, the wake/duration fields, current time and staleness — only
when a light-status notification is applied, and the result is stored;
`get_data` returns the stored value unchanged at any later read.  The
staleness override holds at application time: if the session is stale when
the light-status notification is applied, `light_on` becomes `-1` and every
subsequent read reports `-1` until the next light-status application. -/
theorem C2_staleness_at_apply_time (s : GBState) (data : List Nat) (val now : Nat)
    (hp : parse_7b data = .parsed gb_light_on val)
    (hstale : is_connected s now = false) :
    (proc_known_ids s data now).light_on = -1 ∧
    ∀ now2, (get_data (proc_known_ids s data now) now2).light_on = -1 := by
  have h1 : is_connected { s with light_status := val } now = false := by
    simpa [is_connected] using hstale
  constructor
  · simp [proc_known_ids, hp, check_light_status, h1, update_timestamp,
      gb_light_on, gb_wake_time, gb_wake_hours, gb_wake_hours_wknd,
      gb_wake_time_wknd, gb_water, gb_lamps]
  · intro now2
    simp [get_data, proc_known_ids, hp, check_light_status, h1, update_timestamp,
      gb_light_on, gb_wake_time, gb_wake_hours, gb_wake_hours_wknd,
      gb_wake_time_wknd, gb_water, gb_lamps]

/-- C2 witness: a light-status notification applied at time `100` to a state
last updated at time `0` (stale, since the timeout is 20) stores `-1`. -/
theorem C2_staleness_at_apply_time_witness :
    (proc_known_ids (initState 0) [0, gb_light_on, 0, 1] 100).light_on = -1 ∧
    ∀ now2, (get_data (proc_known_ids (initState 0) [0, gb_light_on, 0, 1] 100) now2).light_on = -1 :=
  C2_staleness_at_apply_time (initState 0) [0, gb_light_on, 0, 1] 1 100
    (by decide) (by decide)

end GreenBox

namespace GreenBox

/-- C6: applying a frame whose parsed `control_id` matches none of the
recognized IDs changes no named state field — the resulting state is exactly
the old state with only `timestamp` (the spec's `last_update`) set to `now`;
and `timestamp` is set to `now` on every apply, recognized or not. -/
theorem C6_unknown_id_noop (s : GBState) (data : List Nat) (now : Nat) :
    (∀ val_id val, parse_7b data = .parsed val_id val →
      val_id ≠ gb_wake_time → val_id ≠ gb_wake_hours → val_id ≠ gb_wake_hours_wknd →
      val_id ≠ gb_wake_time_wknd → val_id ≠ gb_water → val_id ∉ gb_lamps →
      val_id ≠ gb_light_on →
      proc_known_ids s data now = { s with timestamp := now }) ∧
    (proc_known_ids s data now).timestamp = now := by
  constructor
  · intro val_id val hp h1 h2 h3 h4 h5 h6 h7
    simp [proc_known_ids, hp, h1, h2, h3, h4, h5, h6, h7, update_timestamp]
  · rcases h : parse_7b data with ⟨raw⟩ | ⟨vid, val⟩ <;>
      simp [proc_known_ids, h, update_timestamp]

/-- C6 witness: control ID `99` is recognized by no dispatch branch; a frame
carrying it only refreshes the timestamp. -/
theorem C6_unknown_id_noop_witness :
    proc_known_ids (initState 0) [0, 99, 0, 5] 7 = { initState 0 with timestamp := 7 } ∧
    (proc_known_ids (initState 0) [0, 99, 0, 5] 7).timestamp = 7 := by
  have h := C6_unknown_id_noop (initState 0) [0, 99, 0, 5] 7
  exact ⟨h.1 99 5 (by decide) (by decide) (by decide) (by decide) (by decide)
    (by decide) (by decide) (by decide), h.2⟩

/-- C7: all numeric command inputs are clamped (saturated, never rejected)
before encoding — `valchk` maps every integer into `[min, max]` for the
domains used by the command channel (`[0,100]`, `[0,24]`, `[0,60]`), and in
particular `lamp_control` with strength `150` encodes strength `100` while
strength `-5` encodes `0`. -/
theorem C7_clamping :
    (∀ v : Int, 0 ≤ valchk v 100 0 ∧ valchk v 100 0 ≤ 100) ∧
    (∀ v : Int, 0 ≤ valchk v 24 0 ∧ valchk v 24 0 ≤ 24) ∧
    (∀ v : Int, 0 ≤ valchk v 60 0 ∧ valchk v 60 0 ≤ 60) ∧
    (∀ lamp_id : Nat, lamp_id < 3 →
      lamp_control 150 lamp_id =
        some [0xEE, gb_lamps.getD lamp_id 0, 0, 100,
              (checksumInt 100 (gb_lamps.getD lamp_id 0)).toNat, 0xEF] ∧
      lamp_control (-5) lamp_id =
        some [0xEE, gb_lamps.getD lamp_id 0, 0, 0,
              (checksumInt 0 (gb_lamps.getD lamp_id 0)).toNat, 0xEF]) := by
  refine ⟨fun v => ⟨le_max_right _ _, max_le (min_le_right _ _) (by norm_num)⟩,
    fun v => ⟨le_max_right _ _, max_le (min_le_right _ _) (by norm_num)⟩,
    fun v => ⟨le_max_right _ _, max_le (min_le_right _ _) (by norm_num)⟩,
    fun lamp_id hid => ?_⟩
  interval_cases lamp_id <;> exact ⟨by decide, by decide⟩

/-- C7 witness: lamp 0 — strength `150` saturates to `100` and `-5` to `0`
in the encoded frame. -/
theorem C7_clamping_witness :
    lamp_control 150 0 =
      some [0xEE, gb_lamps.getD 0 0, 0, 100, (checksumInt 100 (gb_lamps.getD 0 0)).toNat, 0xEF] ∧
    lamp_control (-5) 0 =
      some [0xEE, gb_lamps.getD 0 0, 0, 0, (checksumInt 0 (gb_lamps.getD 0 0)).toNat, 0xEF] :=
  C7_clamping.2.2.2 0 (by decide)

/-! ### Diagnostic-log helpers and claim -/

lemma lookup_none_keys {store : DataStore} {data : List Nat}
    (h : List.lookup data store = none) : ∀ p ∈ store, p.1 ≠ data := by
  induction store with
  | nil => simp
  | cons hd tl ih =>
    intro p hp
    rcases List.mem_cons.mp hp with rfl | hmem
    · intro hk
      rw [List.lookup, hk] at h
      simp at h
    · rcases hbeq : data == hd.1 with _ | _
      · rw [List.lookup, hbeq] at h
        exact ih h p hmem
      · rw [List.lookup, hbeq] at h
        simp at h

lemma lookup_append_self {store : DataStore} {data : List Nat} (e : LogEntry)
    (h : List.lookup data store = none) :
    List.lookup data (store ++ [(data, e)]) = some e := by
  induction store with
  | nil => simp [List.lookup]
  | cons hd tl ih =>
    rcases hbeq : data == hd.1 with _ | _
    · rw [List.lookup, hbeq] at h
      rw [List.cons_append, List.lookup, hbeq]
      exact ih h
    · rw [List.lookup, hbeq] at h
      simp at h

lemma map_refresh_eq_self (store : DataStore) (data : List Nat) (ts : Nat)
    (h : ∀ p ∈ store, p.1 ≠ data) :
    (store.map fun p => if p.1 = data then (p.1, { p.2 with timestamp := ts }) else p) = store := by
  induction store with
  | nil => simp
  | cons hd tl ih =>
    simp only [List.map_cons, List.cons.injEq]
    constructor
    · rw [if_neg (h hd (List.mem_cons_self hd tl))]
    · exact ih fun p hp => h p (List.mem_cons_of_mem hd hp)

/-- C9: the diagnostic log keeps exactly one entry per distinct raw byte
sequence — recording the same bytes first at `t1` and again at `t2` leaves a
single entry whose `last_seen` is `t2` while `first_seen = t1` and the
decoded parse are preserved, and the log grows by exactly one entry overall
(no duplicate for the repeat). -/
theorem C9_diagnostic_dedup (store : DataStore) (data : List Nat) (t1 t2 : Nat)
    (hfresh : List.lookup data store = none) :
    proc_all (proc_all store data t1) data t2 =
      store ++ [(data, { timestamp := t2, first_timestamp := t1,
                         raw_val := data, parsed := parse_7b data })] ∧
    (proc_all (proc_all store data t1) data t2).length = store.length + 1 ∧
    List.lookup data (proc_all (proc_all store data t1) data t2) =
      some { timestamp := t2, first_timestamp := t1,
             raw_val := data, parsed := parse_7b data } := by
  have hkeys := lookup_none_keys hfresh
  have hst1 : proc_all store data t1 =
      store ++ [(data, { timestamp := t1, first_timestamp := t1,
                         raw_val := data, parsed := parse_7b data })] := by
    simp [proc_all, hfresh]
  have hlook1 : List.lookup data (proc_all store data t1) =
      some { timestamp := t1, first_timestamp := t1,
             raw_val := data, parsed := parse_7b data } := by
    rw [hst1]
    exact lookup_append_self _ hfresh
  have hst2 : proc_all (proc_all store data t1) data t2 =
      store ++ [(data, { timestamp := t2, first_timestamp := t1,
                         raw_val := data, parsed := parse_7b data })] := by
    rw [proc_all, if_pos (by rw [hlook1]; rfl), hst1, List.map_append,
      map_refresh_eq_self store data t2 hkeys]
    simp
  refine ⟨hst2, by rw [hst2]; simp, by rw [hst2]; exact lookup_append_self _ hfresh⟩

/-- C9 witness: the empty log, the frame `[0, 17, 0, 1]` seen at times `5`
and then `9`. -/
theorem C9_diagnostic_dedup_witness :
    proc_all (proc_all [] [0, 17, 0, 1] 5) [0, 17, 0, 1] 9 =
      [([0, 17, 0, 1], { timestamp := 9, first_timestamp := 5,
                         raw_val := [0, 17, 0, 1], parsed := parse_7b [0, 17, 0, 1] })] ∧
    (proc_all (proc_all [] [0, 17, 0, 1] 5) [0, 17, 0, 1] 9).length = 1 := by
  have h := C9_diagnostic_dedup [] [0, 17, 0, 1] 5 9 rfl
  exact ⟨h.1, h.2.1⟩

end GreenBox
